import Mathlib

/-!
Shallow embedding of the sample-relay-node control plane (src/main.rs,
src/rpc.rs): a thin HTTP layer over an external lightning-node engine.
Engine operations are modelled as function parameters to each handler;
every Rust `.unwrap()` is modelled by lifting the engine result into
`Except Crash`, where `Crash.unwrapFailed` stands for the Rust panic that
aborts the handler. Machine integers are `Nat` with explicit reduction
modulo 2^64 where Rust u64 multiplication can overflow.
-/

namespace RelayNode

/-- A Rust panic raised by `.unwrap()` on an error or missing value. -/
inductive Crash where
  | unwrapFailed
deriving DecidableEq, Repr

/-- An opaque failure returned by an engine operation. -/
inductive EngineError where
  | err (msg : String)
deriving DecidableEq, Repr

/-- Rust `Result::unwrap`: a success passes through, a failure panics. -/
def unwrapE {α : Type} : Except EngineError α → Except Crash α
  | Except.ok a => Except.ok a
  | Except.error _ => Except.error Crash.unwrapFailed

/-- Rust `Option::unwrap`: a present value passes through, `None` panics. -/
def unwrapO {α : Type} : Option α → Except Crash α
  | some a => Except.ok a
  | none => Except.error Crash.unwrapFailed

/-- The sixteen lowercase hexadecimal digit characters, in value order:
codes 48 to 57 are the decimal digits, codes 97 to 102 the letters a-f. -/
def hexDigitChars : List Char :=
  (List.range 16).map (fun n => Char.ofNat (if n < 10 then 48 + n else 87 + n))

/-- The lowercase hexadecimal digit for a value below sixteen. -/
def hexDigit (n : Nat) : Char := hexDigitChars.getD n '0'

/-- The two lowercase hex characters rendering one byte (high nibble first),
as the `hex` crate's `to_lower_hex_string` renders each byte. -/
def byteToHexChars (b : Nat) : List Char := [hexDigit (b / 16 % 16), hexDigit (b % 16)]

/-- Lowercase hexadecimal rendering of a byte list: the model of
`to_lower_hex_string` on a Rust byte array. -/
def hexOfBytes (bs : List Nat) : String := String.mk ((bs.map byteToHexChars).flatten)

/-- Every character of the string is one of the sixteen lowercase
hexadecimal digits. -/
def isLowerHexString (s : String) : Prop := ∀ c ∈ s.data, c ∈ hexDigitChars

instance (s : String) : Decidable (isLowerHexString s) := by
  unfold isLowerHexString
  infer_instance

/-- The numeric value of one hexadecimal character, as accepted by the `hex`
crate's decoder: both cases are accepted on input. -/
def hexVal (c : Char) : Option Nat :=
  if 48 ≤ c.toNat ∧ c.toNat ≤ 57 then some (c.toNat - 48)
  else if 97 ≤ c.toNat ∧ c.toNat ≤ 102 then some (c.toNat - 87)
  else if 65 ≤ c.toNat ∧ c.toNat ≤ 70 then some (c.toNat - 55)
  else none

/-- Decode a character list two hex digits at a time into bytes; an odd
length or a non-hex character fails, as in the `hex` crate. -/
def hexPairs : List Char → Option (List Nat)
  | [] => some []
  | [_] => none
  | c1 :: c2 :: rest =>
    match hexVal c1, hexVal c2, hexPairs rest with
    | some hi, some lo, some bs => some ((16 * hi + lo) :: bs)
    | _, _, _ => none

/-- The model of `<[u8; 32]>::from_hex`: decode the string as hex bytes and
require exactly 32 of them. -/
def from_hex32 (s : String) : Option (List Nat) :=
  match hexPairs s.data with
  | some bs => if bs.length = 32 then some bs else none
  | none => none

/-- Modelled from the spec: the engine's structured network-address type
(library code outside this repository), holding a host and a port. -/
structure SocketAddress where
  host : String
  port : Nat
deriving DecidableEq, Repr

/-- Split a character list into the groups between occurrences of a
separator character. -/
def splitOnChar (sep : Char) : List Char → List (List Char)
  | [] => [[]]
  | c :: rest =>
    let r := splitOnChar sep rest
    if c = sep then [] :: r
    else
      match r with
      | [] => [[c]]
      | g :: gs => (c :: g) :: gs

/-- The numeric value of one decimal digit character. -/
def decDigit? (c : Char) : Option Nat :=
  if 48 ≤ c.toNat ∧ c.toNat ≤ 57 then some (c.toNat - 48) else none

/-- Accumulate decimal digits left to right; any non-digit fails. -/
def decNatCore : List Char → Nat → Option Nat
  | [], acc => some acc
  | c :: cs, acc =>
    match decDigit? c with
    | some d => decNatCore cs (10 * acc + d)
    | none => none

/-- Parse a nonempty all-digit character list as a decimal number. -/
def decNat? : List Char → Option Nat
  | [] => none
  | cs => decNatCore cs 0

/-- Modelled from the spec: the engine address parser for a single
host-colon-port string (library code outside this repository). Parsing fails
with no colon present, an empty host, or a port that is not a decimal
number below 65536; the part after the last colon is the port. -/
def SocketAddress.from_str (s : String) : Option SocketAddress :=
  match splitOnChar ':' s.data with
  | [] => none
  | [_] => none
  | parts =>
    let hostChars := List.intercalate [':'] parts.dropLast
    match decNat? (parts.getLastD []) with
    | some p =>
      if p < 65536 ∧ hostChars ≠ [] then some ⟨String.mk hostChars, p⟩ else none
    | none => none

/-- A secp256k1 public key, kept as its byte serialization. -/
structure PublicKey where
  bytes : List Nat
deriving DecidableEq, Repr

/-- The engine renders a public key as lowercase hexadecimal text. -/
def PublicKey.to_string (pk : PublicKey) : String := hexOfBytes pk.bytes

/-- A 32-byte channel identifier from the engine. -/
structure ChannelId where
  bytes : List Nat
deriving DecidableEq, Repr

/-- The engine renders a channel id as lowercase hexadecimal text. -/
def ChannelId.to_string (c : ChannelId) : String := hexOfBytes c.bytes

/-- The engine's 128-bit correlation id for a channel open; field `val`
models the Rust tuple access `.0`. -/
structure UserChannelId where
  val : Nat
deriving DecidableEq, Repr

/-- A 32-byte payment hash; field `bytes` models the Rust tuple access `.0`. -/
structure PaymentHash where
  bytes : List Nat
deriving DecidableEq, Repr

/-- A 32-byte payment preimage; field `bytes` models the Rust tuple
access `.0`. -/
structure PaymentPreimage where
  bytes : List Nat
deriving DecidableEq, Repr

/-- The engine's three payment statuses (`ldk_node::PaymentStatus`). -/
inductive PaymentStatus where
  | Pending
  | Succeeded
  | Failed
deriving DecidableEq, Repr

/-- The engine's payment record, restricted to the fields `get_payment`
reads. -/
structure PaymentDetails where
  status : PaymentStatus
  preimage : Option PaymentPreimage
deriving DecidableEq, Repr

/-- The engine's channel record, restricted to the fields the translator
copies into `CompactChannel`. -/
structure ChannelDetails where
  channel_id : ChannelId
  counterparty_node_id : PublicKey
  channel_value_sats : Nat
  user_channel_id : UserChannelId
  outbound_capacity_msat : Nat
  inbound_capacity_msat : Nat
  is_channel_ready : Bool
  is_usable : Bool
deriving DecidableEq, Repr

/-- The u64 wrap-around modulus, 2 to the 64th power. -/
def u64Mod : Nat := 18446744073709551616

/-- Unchecked Rust u64 multiplication: the product reduced modulo 2^64. -/
def u64mul (a b : Nat) : Nat := a * b % u64Mod

/-- Request body of POST /channels (src/rpc.rs OpenChannelRequest): exactly
four fields, no caller-supplied correlation id. -/
structure OpenChannelRequest where
  pubkey : PublicKey
  ip_port : String
  funding_sats : Nat
  push_sats : Nat
deriving DecidableEq, Repr

/-- Response body of POST /channels. -/
structure OpenChannelResponse where
  user_channel_id : Nat
deriving DecidableEq, Repr

/-- Request body of POST /connect-peer. -/
structure ConnectPeerRequest where
  pubkey : PublicKey
  ip_port : String
deriving DecidableEq, Repr

/-- Response body of POST /connect-peer: empty. -/
structure ConnectPeerResponse where
deriving DecidableEq, Repr

/-- One wire channel entry (src/rpc.rs CompactChannel). -/
structure CompactChannel where
  channel_id : String
  counterparty_node_id : PublicKey
  channel_value_sats : Nat
  user_channel_id : Nat
  outbound_capacity_msat : Nat
  inbound_capacity_msat : Nat
  is_channel_ready : Bool
  is_usable : Bool
deriving DecidableEq, Repr

/-- Response body of GET /channels. -/
structure ListChannelsResponse where
  channels : List CompactChannel
deriving DecidableEq, Repr

/-- Request body of POST /pay-invoice. -/
structure PayInvoiceRequest where
  invoice : String
deriving DecidableEq, Repr

/-- Response body of POST /pay-invoice. -/
structure PayInvoiceResponse where
  payment_hash : String
deriving DecidableEq, Repr

/-- Request body of POST /get-invoice. -/
structure GetInvoiceRequest where
  amount_sats : Nat
  description : String
  expiry_secs : Nat
deriving DecidableEq, Repr

/-- Response body of POST /get-invoice. -/
structure GetInvoiceResponse where
  invoice : String
deriving DecidableEq, Repr

/-- Response body of POST /sync, modelling the literal JSON object with a
single field synced set to true. -/
structure SyncResponse where
  synced : Bool
deriving DecidableEq, Repr

/-- Response body of GET /get-payment. -/
structure GetPaymentResponse where
  status : String
  preimage : Option String
deriving DecidableEq, Repr

/-- A parsed BOLT11 invoice from the external library, kept opaque as its
textual form. -/
structure Bolt11Invoice where
  raw : String
deriving DecidableEq, Repr

/-- The full argument tuple the handler passes to the engine's
`connect_open_channel` operation. -/
structure OpenChannelCall where
  node_id : PublicKey
  address : SocketAddress
  channel_amount_sats : Nat
  push_to_counterparty_msat : Option Nat
  channel_config : Option Unit
  announce_channel : Bool
deriving DecidableEq, Repr

/-- The arguments built by `open_channel` (src/rpc.rs lines 138-147): the
funding amount is passed through as given, the push amount is scaled by
1000 with unchecked u64 multiplication, the channel config is `None` and
the announce flag is `true`. -/
def openChannelCall (req : OpenChannelRequest) (socket_addr : SocketAddress) : OpenChannelCall :=
  { node_id := req.pubkey
    address := socket_addr
    channel_amount_sats := req.funding_sats
    push_to_counterparty_msat := some (u64mul req.push_sats 1000)
    channel_config := none
    announce_channel := true }

/-- Handler for POST /channels (src/rpc.rs `open_channel`): parse the
address with `.unwrap()`, call `connect_open_channel` with `.unwrap()`,
and answer with the engine-assigned correlation id. -/
def open_channel (connect_open_channel : OpenChannelCall → Except EngineError UserChannelId)
    (req : OpenChannelRequest) : Except Crash OpenChannelResponse := do
  let socket_addr ← unwrapO (SocketAddress.from_str req.ip_port)
  let res ← unwrapE (connect_open_channel (openChannelCall req socket_addr))
  pure { user_channel_id := res.val }

/-- Handler for POST /connect-peer (src/rpc.rs `connect_peer`): parse the
address with `.unwrap()`, call `connect` with persist set to false and
`.unwrap()` the result. -/
def connect_peer (connect : PublicKey → SocketAddress → Bool → Except EngineError Unit)
    (req : ConnectPeerRequest) : Except Crash ConnectPeerResponse := do
  let socket_addr ← unwrapO (SocketAddress.from_str req.ip_port)
  let _ ← unwrapE (connect req.pubkey socket_addr false)
  pure {}

/-- The translator from an engine channel record to a wire entry
(src/rpc.rs impl From ChannelDetails for CompactChannel, lines 73-86). -/
def CompactChannel.ofChannelDetails (channel : ChannelDetails) : CompactChannel :=
  { channel_id := channel.channel_id.to_string
    counterparty_node_id := channel.counterparty_node_id
    channel_value_sats := channel.channel_value_sats
    user_channel_id := channel.user_channel_id.val
    outbound_capacity_msat := channel.outbound_capacity_msat
    inbound_capacity_msat := channel.inbound_capacity_msat
    is_channel_ready := channel.is_channel_ready
    is_usable := channel.is_usable }

/-- Handler for GET /channels (src/rpc.rs `list_channels`): map the
translator over the engine's channel list; no fallible step. -/
def list_channels (channels : List ChannelDetails) : ListChannelsResponse :=
  { channels := channels.map CompactChannel.ofChannelDetails }

/-- Handler for POST /pay-invoice (src/rpc.rs `pay_invoice`): parse the
invoice with `.unwrap()`, send it with `.unwrap()`, render the returned
payment hash as lowercase hex. The external BOLT11 text parser is a
function parameter. -/
def pay_invoice (from_str : String → Option Bolt11Invoice)
    (send_payment : Bolt11Invoice → Except EngineError PaymentHash)
    (req : PayInvoiceRequest) : Except Crash PayInvoiceResponse := do
  let invoice ← unwrapO (from_str req.invoice)
  let res ← unwrapE (send_payment invoice)
  pure { payment_hash := hexOfBytes res.bytes }

/-- The full argument tuple the handler passes to the engine's
`receive_payment` operation. -/
structure ReceivePaymentCall where
  amount_msat : Nat
  description : String
  expiry_secs : Nat
deriving DecidableEq, Repr

/-- The arguments built by `get_invoice` (src/rpc.rs line 214): the amount
is scaled by 1000 with unchecked u64 multiplication, description and
expiry pass through. -/
def receivePaymentCall (req : GetInvoiceRequest) : ReceivePaymentCall :=
  { amount_msat := u64mul req.amount_sats 1000
    description := req.description
    expiry_secs := req.expiry_secs }

/-- Handler for POST /get-invoice (src/rpc.rs `get_invoice`): call
`receive_payment` with `.unwrap()` and answer with the invoice text. -/
def get_invoice (receive_payment : ReceivePaymentCall → Except EngineError Bolt11Invoice)
    (req : GetInvoiceRequest) : Except Crash GetInvoiceResponse := do
  let invoice ← unwrapE (receive_payment (receivePaymentCall req))
  pure { invoice := invoice.raw }

/-- Handler for POST /sync (src/rpc.rs `sync`): `.unwrap()` the wallet sync
and answer with the fixed acknowledgement object. -/
def sync (sync_wallets : Except EngineError Unit) : Except Crash SyncResponse := do
  let _ ← unwrapE sync_wallets
  pure { synced := true }

/-- Handler for GET /funding-address (src/rpc.rs `funding_address`):
`.unwrap()` a fresh address from the engine. -/
def funding_address (new_onchain_address : Except EngineError String) :
    Except Crash String := do
  let addr ← unwrapE new_onchain_address
  pure addr

/-- The status tokens rendered by `get_payment` (src/rpc.rs lines 244-248). -/
def statusString : PaymentStatus → String
  | PaymentStatus.Pending => "pending"
  | PaymentStatus.Succeeded => "succeeded"
  | PaymentStatus.Failed => "failed"

/-- Handler for GET /get-payment/:payment_hash (src/rpc.rs `get_payment`):
decode the hash with `.unwrap()`, look the payment up and `.unwrap()` the
optional result, then render status token and optional lowercase-hex
preimage. -/
def get_payment (payment : List Nat → Option PaymentDetails)
    (payment_hash : String) : Except Crash GetPaymentResponse := do
  let payment_hash_bytes ← unwrapO (from_hex32 payment_hash)
  let p ← unwrapO (payment payment_hash_bytes)
  pure { status := statusString p.status
         preimage := p.preimage.map (fun pre => hexOfBytes pre.bytes) }

/-- Modelled from the spec: the reference process behavior in which a panic
escaping any handler crashes the entire process, so requests after the
first crashing one are never served. The server is a run over the queue of
handler outcomes. -/
def runServer {ρ : Type} : List (Except Crash ρ) → Except Crash (List ρ)
  | [] => Except.ok []
  | r :: rs =>
    match r with
    | Except.error c => Except.error c
    | Except.ok v =>
      match runServer rs with
      | Except.error c => Except.error c
      | Except.ok vs => Except.ok (v :: vs)

/-- The opaque built node engine from `Builder::build_with_fs_store`. -/
structure Node where
  id : Nat
deriving DecidableEq, Repr

/-- Observable startup milestones of `main` (src/main.rs). -/
inductive StartupEvent where
  | nodeBuilt
  | nodeStarted
  | listenerOpened
  | serving
deriving DecidableEq, Repr

/-- The startup sequence of `main` (src/main.rs lines 74-113): build the
node with `.unwrap()`, start it with `.unwrap()`, only then bind the
control-plane listener with `.unwrap()` and serve. The result pairs the
milestones reached in order with the crash, when one happened. -/
def mainFlow (build : Except EngineError Node) (start : Node → Except EngineError Unit)
    (bindListener : Except EngineError Unit) : List StartupEvent × Option Crash :=
  match build with
  | Except.error _ => ([], some Crash.unwrapFailed)
  | Except.ok node =>
    match start node with
    | Except.error _ => ([StartupEvent.nodeBuilt], some Crash.unwrapFailed)
    | Except.ok _ =>
      match bindListener with
      | Except.error _ =>
        ([StartupEvent.nodeBuilt, StartupEvent.nodeStarted], some Crash.unwrapFailed)
      | Except.ok _ =>
        ([StartupEvent.nodeBuilt, StartupEvent.nodeStarted,
          StartupEvent.listenerOpened, StartupEvent.serving], none)

/-- A concrete public key used as sample input. -/
def pkEx : PublicKey := ⟨[2, 171, 205]⟩

/-- A concrete parsed socket address used as sample input. -/
def addrEx : SocketAddress := ⟨"1.2.3.4", 9735⟩

/-- A concrete open-channel request with funding of one whole unit. -/
def reqC1 : OpenChannelRequest := ⟨pkEx, "1.2.3.4:9735", 1, 0⟩

/-- A concrete open-channel request used as sample input. -/
def reqC5 : OpenChannelRequest := ⟨pkEx, "1.2.3.4:9735", 100000, 5⟩

/-- A concrete open-channel request used as sample input. -/
def oreqEx : OpenChannelRequest := ⟨pkEx, "1.2.3.4:9735", 20000, 3⟩

/-- The all-zero 32-byte payment hash as 64 hex characters. -/
def zeroHash : String :=
  "0000000000000000000000000000000000000000000000000000000000000000"

/-- The all-zero 32-byte value. -/
def zeroBytes : List Nat :=
  [0, 0, 0, 0, 0, 0, 0, 0, 0, 0, 0, 0, 0, 0, 0, 0,
   0, 0, 0, 0, 0, 0, 0, 0, 0, 0, 0, 0, 0, 0, 0, 0]

/-- A concrete engine channel record used as sample input. -/
def chanEx1 : ChannelDetails := ⟨⟨[18, 52]⟩, pkEx, 100000, ⟨77⟩, 5000, 6000, true, false⟩

/-- A concrete engine channel record used as sample input. -/
def chanEx2 : ChannelDetails := ⟨⟨[171]⟩, pkEx, 2, ⟨88⟩, 0, 0, false, false⟩

/-- Every value the digit table yields is a lowercase hex digit, the
out-of-range default included. -/
theorem hexDigit_mem (n : Nat) : hexDigit n ∈ hexDigitChars := by
  rcases Nat.lt_or_ge n 16 with h | h
  · interval_cases n <;> decide
  · have hd : hexDigitChars.getD n '0' = '0' := by
      apply List.getD_eq_default
      simpa [hexDigitChars] using h
    rw [hexDigit, hd]
    decide

/-- The hex rendering of any byte list is all lowercase hex digits. -/
theorem hexOfBytes_lower (bs : List Nat) : isLowerHexString (hexOfBytes bs) := by
  intro c hc
  have hc2 : c ∈ (bs.map byteToHexChars).flatten := hc
  rcases List.mem_flatten.mp hc2 with ⟨l, hl, hcl⟩
  rcases List.mem_map.mp hl with ⟨b, _, rfl⟩
  simp only [byteToHexChars, List.mem_cons, List.not_mem_nil, or_false] at hcl
  rcases hcl with rfl | rfl
  · exact hexDigit_mem _
  · exact hexDigit_mem _

/-- A crash anywhere in the request queue aborts the modelled reference
server: everything after the first crashing request is never served. -/
theorem runServer_crash_propagates (ρ : Type) (pre : List (Except Crash ρ)) (c : Crash)
    (post : List (Except Crash ρ)) (hpre : ∀ r ∈ pre, ∃ v, r = Except.ok v) :
    runServer (pre ++ Except.error c :: post) = Except.error c := by
  induction pre with
  | nil => simp [runServer]
  | cons r rs ih =>
    rcases hpre r (List.mem_cons_self _ _) with ⟨v, rfl⟩
    have h2 := ih (fun x hx => hpre x (List.mem_cons_of_mem _ hx))
    simp [runServer, List.cons_append, h2]

/-- C1 counterexample: in the open-channel handler the funding amount of a
request for one whole unit reaches the engine as 1, not as 1000; the
claimed times-1000 equation fails for the funding amount. -/
theorem funding_amount_not_scaled_counterexample :
    SocketAddress.from_str reqC1.ip_port = some addrEx ∧
    (openChannelCall reqC1 addrEx).channel_amount_sats = 1 ∧
    reqC1.funding_sats * 1000 = 1000 ∧
    ¬ (openChannelCall reqC1 addrEx).channel_amount_sats = reqC1.funding_sats * 1000 := by
  refine ⟨rfl, rfl, rfl, by decide⟩

/-- C1 amended: the push amount and the get-invoice amount reach the engine
as the input times 1000 (an unchecked u64 product, exact whenever it stays
below 2 to the 64th), while the funding amount reaches the engine
unchanged. -/
theorem amounts_reaching_engine :
    (∀ (req : OpenChannelRequest) (addr : SocketAddress),
      (openChannelCall req addr).channel_amount_sats = req.funding_sats ∧
      (openChannelCall req addr).push_to_counterparty_msat = some (u64mul req.push_sats 1000)) ∧
    (∀ req : GetInvoiceRequest,
      (receivePaymentCall req).amount_msat = u64mul req.amount_sats 1000) ∧
    (∀ n : Nat, n * 1000 < u64Mod → u64mul n 1000 = n * 1000) := by
  refine ⟨fun req addr => ⟨rfl, rfl⟩, fun req => rfl, fun n h => ?_⟩
  simp [u64mul, Nat.mod_eq_of_lt h]

/-- C1 witness: a get-invoice request for 7 whole units reaches the engine
as exactly 7000 milli-units. -/
theorem amounts_reaching_engine_witness :
    (receivePaymentCall ⟨7, "memo", 3600⟩).amount_msat = 7 * 1000 := by
  exact (amounts_reaching_engine.2.1 ⟨7, "memo", 3600⟩).trans
    (amounts_reaching_engine.2.2 7 (by norm_num [u64Mod]))

/-- C2 counterexample: on a syntactically valid all-zero 32-byte hex hash
that the engine does not know, the get-payment handler crashes (the unwrap
panic), contradicting the claimed not-found outcome without a crash. -/
theorem get_payment_unknown_hash_counterexample :
    (from_hex32 zeroHash).isSome = true ∧
    get_payment (fun _ => none) zeroHash = Except.error Crash.unwrapFailed := ⟨rfl, rfl⟩

/-- C2 amended: for every syntactically valid hex-encoded 32-byte payment
hash the engine does not know, the get-payment handler terminates
abnormally with the unwrap panic; it never produces a not-found
response. -/
theorem get_payment_unknown_hash_crashes
    (payment : List Nat → Option PaymentDetails) (s : String) (bs : List Nat)
    (hparse : from_hex32 s = some bs) (hmiss : payment bs = none) :
    get_payment payment s = Except.error Crash.unwrapFailed := by
  simp [get_payment, hparse, hmiss, unwrapO, bind, Except.bind]

/-- C2 witness: the amended theorem applied to the all-zero hash against an
engine that knows no payments. -/
theorem get_payment_unknown_hash_crashes_witness :
    get_payment (fun _ => none) zeroHash = Except.error Crash.unwrapFailed := by
  exact get_payment_unknown_hash_crashes (fun _ => none) zeroHash zeroBytes rfl rfl

/-- C3 counterexample: with ip_port "not-an-address" both the open-channel
and the connect-peer handlers crash with the unwrap panic instead of
yielding a client-error outcome. -/
theorem bad_address_counterexample :
    SocketAddress.from_str "not-an-address" = none ∧
    open_channel (fun _ => Except.ok ⟨7⟩) ⟨pkEx, "not-an-address", 100000, 0⟩ =
      Except.error Crash.unwrapFailed ∧
    connect_peer (fun _ _ _ => Except.ok ()) ⟨pkEx, "not-an-address"⟩ =
      Except.error Crash.unwrapFailed := ⟨rfl, rfl, rfl⟩

/-- C3 amended: for every request whose ip_port does not parse as a
structured socket address, the open-channel handler (and likewise the
connect-peer handler) terminates abnormally with the unwrap panic rather
than yielding a client-error or validation-error outcome. -/
theorem bad_address_crashes_handler :
    (∀ (g : OpenChannelCall → Except EngineError UserChannelId) (req : OpenChannelRequest),
      SocketAddress.from_str req.ip_port = none →
      open_channel g req = Except.error Crash.unwrapFailed) ∧
    (∀ (g : PublicKey → SocketAddress → Bool → Except EngineError Unit)
      (req : ConnectPeerRequest),
      SocketAddress.from_str req.ip_port = none →
      connect_peer g req = Except.error Crash.unwrapFailed) := by
  constructor
  · intro g req h
    simp [open_channel, h, unwrapO, bind, Except.bind]
  · intro g req h
    simp [connect_peer, h, unwrapO, bind, Except.bind]

/-- C3 witness: the amended theorem applied to the literal request with
ip_port "not-an-address". -/
theorem bad_address_crashes_handler_witness :
    open_channel (fun _ => Except.ok ⟨9⟩) ⟨pkEx, "not-an-address", 50000, 1⟩ =
      Except.error Crash.unwrapFailed ∧
    connect_peer (fun _ _ _ => Except.ok ()) ⟨⟨[3, 1]⟩, "not-an-address"⟩ =
      Except.error Crash.unwrapFailed := by
  exact ⟨bad_address_crashes_handler.1 (fun _ => Except.ok ⟨9⟩) ⟨pkEx, "not-an-address", 50000, 1⟩ rfl,
    bad_address_crashes_handler.2 (fun _ _ _ => Except.ok ()) ⟨⟨[3, 1]⟩, "not-an-address"⟩ rfl⟩

/-- C4: every failure inside a handler, malformed input or engine
rejection, terminates the handler abnormally with the unwrap panic (the
handlers have no structured error response at all), and in the modelled
reference process behavior one crashing request takes down the whole
serve run, so no later request is ever served. -/
theorem handler_failures_crash_process :
    (∀ (p : String → Option Bolt11Invoice)
      (s : Bolt11Invoice → Except EngineError PaymentHash) (req : PayInvoiceRequest),
      p req.invoice = none → pay_invoice p s req = Except.error Crash.unwrapFailed) ∧
    (∀ (p : String → Option Bolt11Invoice)
      (s : Bolt11Invoice → Except EngineError PaymentHash) (req : PayInvoiceRequest)
      (inv : Bolt11Invoice) (e : EngineError),
      p req.invoice = some inv → s inv = Except.error e →
      pay_invoice p s req = Except.error Crash.unwrapFailed) ∧
    (∀ e : EngineError, sync (Except.error e) = Except.error Crash.unwrapFailed) ∧
    (∀ e : EngineError, funding_address (Except.error e) = Except.error Crash.unwrapFailed) ∧
    (∀ (g : OpenChannelCall → Except EngineError UserChannelId) (req : OpenChannelRequest)
      (addr : SocketAddress) (e : EngineError),
      SocketAddress.from_str req.ip_port = some addr →
      g (openChannelCall req addr) = Except.error e →
      open_channel g req = Except.error Crash.unwrapFailed) ∧
    (∀ (g : PublicKey → SocketAddress → Bool → Except EngineError Unit)
      (req : ConnectPeerRequest) (addr : SocketAddress) (e : EngineError),
      SocketAddress.from_str req.ip_port = some addr →
      g req.pubkey addr false = Except.error e →
      connect_peer g req = Except.error Crash.unwrapFailed) ∧
    (∀ (r : ReceivePaymentCall → Except EngineError Bolt11Invoice)
      (req : GetInvoiceRequest) (e : EngineError),
      r (receivePaymentCall req) = Except.error e →
      get_invoice r req = Except.error Crash.unwrapFailed) ∧
    (∀ (payment : List Nat → Option PaymentDetails) (s : String),
      from_hex32 s = none → get_payment payment s = Except.error Crash.unwrapFailed) ∧
    (∀ (ρ : Type) (pre : List (Except Crash ρ)) (c : Crash) (post : List (Except Crash ρ)),
      (∀ r ∈ pre, ∃ v, r = Except.ok v) →
      runServer (pre ++ Except.error c :: post) = Except.error c) := by
  refine ⟨?_, ?_, ?_, ?_, ?_, ?_, ?_, ?_, runServer_crash_propagates⟩
  · intro p s req h
    simp [pay_invoice, h, unwrapO, bind, Except.bind]
  · intro p s req inv e h1 h2
    simp [pay_invoice, h1, h2, unwrapO, unwrapE, bind, Except.bind]
  · intro e
    simp [sync, unwrapE, bind, Except.bind]
  · intro e
    simp [funding_address, unwrapE, bind, Except.bind]
  · intro g req addr e h1 h2
    simp [open_channel, h1, h2, unwrapO, unwrapE, bind, Except.bind]
  · intro g req addr e h1 h2
    simp [connect_peer, h1, h2, unwrapO, unwrapE, bind, Except.bind]
  · intro r req e h
    simp [get_invoice, h, unwrapE, bind, Except.bind]
  · intro payment s h
    simp [get_payment, h, unwrapO, bind, Except.bind]

/-- C4 witness: a pay-invoice request whose invoice does not parse crashes
its handler, and the modelled reference server run dies at that crash,
never serving the request queued behind it. -/
theorem handler_failures_crash_process_witness :
    pay_invoice (fun _ => none) (fun _ => Except.ok ⟨[171]⟩) ⟨"not-an-invoice"⟩ =
      Except.error Crash.unwrapFailed ∧
    runServer [Except.ok ({ synced := true } : SyncResponse), Except.error Crash.unwrapFailed,
      Except.ok ({ synced := true } : SyncResponse)] = Except.error Crash.unwrapFailed := by
  constructor
  · exact handler_failures_crash_process.1 (fun _ => none) (fun _ => Except.ok ⟨[171]⟩)
      ⟨"not-an-invoice"⟩ rfl
  · exact handler_failures_crash_process.2.2.2.2.2.2.2.2 SyncResponse
      [Except.ok { synced := true }] Crash.unwrapFailed [Except.ok { synced := true }]
      (by intro r hr; rcases List.mem_singleton.mp hr with rfl; exact ⟨_, rfl⟩)

/-- C5: the open-channel request carries exactly the four fields pubkey,
ip_port, funding_sats and push_sats, so no caller-supplied correlation id
exists, and on every successful call the response's user_channel_id is
exactly the correlation id the engine assigned and returned. -/
theorem engine_assigns_user_channel_id :
    (∀ (r1 r2 : OpenChannelRequest), r1.pubkey = r2.pubkey → r1.ip_port = r2.ip_port →
      r1.funding_sats = r2.funding_sats → r1.push_sats = r2.push_sats → r1 = r2) ∧
    (∀ (g : OpenChannelCall → Except EngineError UserChannelId) (req : OpenChannelRequest)
      (addr : SocketAddress) (u : UserChannelId),
      SocketAddress.from_str req.ip_port = some addr →
      g (openChannelCall req addr) = Except.ok u →
      open_channel g req = Except.ok { user_channel_id := u.val }) := by
  constructor
  · intro r1 r2 h1 h2 h3 h4
    cases r1
    cases r2
    simp_all
  · intro g req addr u hp hc
    simp [open_channel, hp, hc, unwrapO, unwrapE, bind, Except.bind, pure, Except.pure]

/-- C5 witness: with an engine that assigns correlation id 42, the handler
answers 42. -/
theorem engine_assigns_user_channel_id_witness :
    open_channel (fun _ => Except.ok ⟨42⟩) reqC5 = Except.ok { user_channel_id := 42 } := by
  exact engine_assigns_user_channel_id.2 (fun _ => Except.ok ⟨42⟩) reqC5 addrEx ⟨42⟩ rfl rfl

/-- C6: the status tokens are exactly the lowercase strings "pending",
"succeeded" and "failed"; every hex-rendered identifier (payment hash,
preimage, channel id, public key) is lowercase hexadecimal text, in
particular in every successful pay-invoice and get-payment response. -/
theorem responses_render_lowercase :
    (statusString PaymentStatus.Pending = "pending" ∧
      statusString PaymentStatus.Succeeded = "succeeded" ∧
      statusString PaymentStatus.Failed = "failed") ∧
    (∀ bs : List Nat, isLowerHexString (hexOfBytes bs)) ∧
    (∀ (p : String → Option Bolt11Invoice)
      (s : Bolt11Invoice → Except EngineError PaymentHash) (req : PayInvoiceRequest)
      (resp : PayInvoiceResponse),
      pay_invoice p s req = Except.ok resp → isLowerHexString resp.payment_hash) ∧
    (∀ (payment : List Nat → Option PaymentDetails) (s : String) (resp : GetPaymentResponse),
      get_payment payment s = Except.ok resp →
      (resp.status = "pending" ∨ resp.status = "succeeded" ∨ resp.status = "failed") ∧
      (∀ pre, resp.preimage = some pre → isLowerHexString pre)) ∧
    (∀ c : ChannelDetails, isLowerHexString (CompactChannel.ofChannelDetails c).channel_id) ∧
    (∀ pk : PublicKey, isLowerHexString pk.to_string) := by
  refine ⟨⟨rfl, rfl, rfl⟩, hexOfBytes_lower, ?_, ?_, ?_, ?_⟩
  · intro p s req resp h
    cases hp : p req.invoice with
    | none => simp [pay_invoice, hp, unwrapO, bind, Except.bind] at h
    | some inv =>
      cases hs : s inv with
      | error e => simp [pay_invoice, hp, hs, unwrapO, unwrapE, bind, Except.bind] at h
      | ok hash =>
        simp [pay_invoice, hp, hs, unwrapO, unwrapE, bind, Except.bind, pure, Except.pure] at h
        rw [← h]
        exact hexOfBytes_lower hash.bytes
  · intro payment s resp h
    cases hparse : from_hex32 s with
    | none => simp [get_payment, hparse, unwrapO, bind, Except.bind] at h
    | some bs =>
      cases hlook : payment bs with
      | none => simp [get_payment, hparse, hlook, unwrapO, bind, Except.bind] at h
      | some pd =>
        simp [get_payment, hparse, hlook, unwrapO, bind, Except.bind, pure, Except.pure] at h
        constructor
        · rw [← h]
          cases pd.status
          · exact Or.inl rfl
          · exact Or.inr (Or.inl rfl)
          · exact Or.inr (Or.inr rfl)
        · intro pre hpre
          rw [← h] at hpre
          cases hpi : pd.preimage with
          | none => simp [hpi] at hpre
          | some pi =>
            simp [hpi] at hpre
            rw [← hpre]
            exact hexOfBytes_lower pi.bytes
  · intro c
    exact hexOfBytes_lower c.channel_id.bytes
  · intro pk
    exact hexOfBytes_lower pk.bytes

/-- C6 witness: a concrete pay-invoice response renders its payment hash
as the lowercase hex text "abcd", and a concrete get-payment response
carries one of the three fixed status tokens. -/
theorem responses_render_lowercase_witness :
    isLowerHexString ({ payment_hash := "abcd" } : PayInvoiceResponse).payment_hash ∧
    (({ status := "succeeded", preimage := some "0102" } : GetPaymentResponse).status = "pending" ∨
      ({ status := "succeeded", preimage := some "0102" } : GetPaymentResponse).status = "succeeded" ∨
      ({ status := "succeeded", preimage := some "0102" } : GetPaymentResponse).status = "failed") := by
  constructor
  · exact responses_render_lowercase.2.2.1 (fun s => some ⟨s⟩)
      (fun _ => Except.ok ⟨[171, 205]⟩) ⟨"lnbc1"⟩ ⟨"abcd"⟩ rfl
  · exact (responses_render_lowercase.2.2.2.1
      (fun _ => some ⟨PaymentStatus.Succeeded, some ⟨[1, 2]⟩⟩) zeroHash
      ⟨"succeeded", some "0102"⟩ rfl).1

/-- C7: if the engine fails to build, or builds but fails to start, the
startup sequence aborts with the unwrap panic before the control-plane
listener ever opens; and the server only reaches the serving milestone
with the listener open, the node built and the node started. -/
theorem startup_aborts_before_listener :
    ∀ (build : Except EngineError Node) (start : Node → Except EngineError Unit)
      (bindListener : Except EngineError Unit),
    (∀ e, build = Except.error e →
      mainFlow build start bindListener = ([], some Crash.unwrapFailed) ∧
      StartupEvent.listenerOpened ∉ (mainFlow build start bindListener).1) ∧
    (∀ node e, build = Except.ok node → start node = Except.error e →
      mainFlow build start bindListener = ([StartupEvent.nodeBuilt], some Crash.unwrapFailed) ∧
      StartupEvent.listenerOpened ∉ (mainFlow build start bindListener).1) ∧
    (StartupEvent.serving ∈ (mainFlow build start bindListener).1 →
      (mainFlow build start bindListener).2 = none ∧
      StartupEvent.listenerOpened ∈ (mainFlow build start bindListener).1 ∧
      ∃ node, build = Except.ok node ∧ start node = Except.ok ()) := by
  intro build start bindL
  refine ⟨?_, ?_, ?_⟩
  · intro e he
    subst he
    refine ⟨rfl, ?_⟩
    simp [mainFlow]
  · intro node e hb hs
    subst hb
    refine ⟨?_, ?_⟩
    · simp [mainFlow, hs]
    · simp [mainFlow, hs]
  · intro hserve
    cases build with
    | error e => simp [mainFlow] at hserve
    | ok node =>
      cases hs : start node with
      | error e => simp [mainFlow, hs] at hserve
      | ok u =>
        cases bindL with
        | error e => simp [mainFlow, hs] at hserve
        | ok v => exact ⟨by simp [mainFlow, hs], by simp [mainFlow, hs], node, rfl, by simp [hs]⟩

/-- C7 witness: a build failure yields the empty milestone list and the
crash, so the listener never opened. -/
theorem startup_aborts_before_listener_witness :
    mainFlow (Except.error (EngineError.err "build failed")) (fun _ => Except.ok ())
      (Except.ok ()) = ([], some Crash.unwrapFailed) := by
  exact ((startup_aborts_before_listener (Except.error (EngineError.err "build failed"))
    (fun _ => Except.ok ()) (Except.ok ())).1 (EngineError.err "build failed") rfl).1

/-- C8: the times-1000 scalings in get-invoice and open-channel are
unchecked u64 products: the amount reaching the engine equals the
mathematical product exactly for inputs at most the floor of
(2 to the 64th minus 1) over 1000, and for every larger input it is the
product reduced modulo 2 to the 64th, which differs from the mathematical
product. -/
theorem scaling_is_unchecked_u64 :
    ∀ (oreq : OpenChannelRequest) (ireq : GetInvoiceRequest) (addr : SocketAddress),
    (ireq.amount_sats ≤ (u64Mod - 1) / 1000 →
      (receivePaymentCall ireq).amount_msat = ireq.amount_sats * 1000) ∧
    ((u64Mod - 1) / 1000 < ireq.amount_sats →
      (receivePaymentCall ireq).amount_msat ≠ ireq.amount_sats * 1000) ∧
    ((receivePaymentCall ireq).amount_msat = ireq.amount_sats * 1000 % u64Mod) ∧
    (oreq.push_sats ≤ (u64Mod - 1) / 1000 →
      (openChannelCall oreq addr).push_to_counterparty_msat = some (oreq.push_sats * 1000)) ∧
    ((u64Mod - 1) / 1000 < oreq.push_sats →
      (openChannelCall oreq addr).push_to_counterparty_msat ≠ some (oreq.push_sats * 1000)) := by
  intro oreq ireq addr
  refine ⟨?_, ?_, rfl, ?_, ?_⟩
  · intro h
    simp only [receivePaymentCall, u64mul, u64Mod] at h ⊢
    omega
  · intro h
    simp only [receivePaymentCall, u64mul, u64Mod] at h ⊢
    omega
  · intro h
    simp only [openChannelCall, u64mul, u64Mod, Option.some.injEq] at h ⊢
    omega
  · intro h
    simp only [openChannelCall, u64mul, u64Mod, ne_eq, Option.some.injEq] at h ⊢
    omega

/-- C8 witness: 5 whole units scale exactly to 5000, while an amount of
2 to the 64th wraps and does not equal its mathematical product. -/
theorem scaling_is_unchecked_u64_witness :
    (receivePaymentCall ⟨5, "d", 60⟩).amount_msat = 5 * 1000 ∧
    (receivePaymentCall ⟨u64Mod, "d", 60⟩).amount_msat ≠ u64Mod * 1000 := by
  constructor
  · exact (scaling_is_unchecked_u64 oreqEx ⟨5, "d", 60⟩ addrEx).1 (by norm_num [u64Mod])
  · exact (scaling_is_unchecked_u64 oreqEx ⟨u64Mod, "d", 60⟩ addrEx).2.1 (by norm_num [u64Mod])

/-- C9: every open-channel call reaches the engine with the announce flag
fixed to true and a push amount that is always an explicit some value,
namely the scaled push amount, some 0 included when push_sats is zero. -/
theorem open_channel_always_announced_with_push :
    ∀ (req : OpenChannelRequest) (addr : SocketAddress),
    (openChannelCall req addr).announce_channel = true ∧
    (openChannelCall req addr).push_to_counterparty_msat = some (u64mul req.push_sats 1000) ∧
    (req.push_sats = 0 → (openChannelCall req addr).push_to_counterparty_msat = some 0) ∧
    ∃ v, (openChannelCall req addr).push_to_counterparty_msat = some v := by
  intro req addr
  refine ⟨rfl, rfl, ?_, ⟨u64mul req.push_sats 1000, rfl⟩⟩
  intro h
  simp [openChannelCall, h, u64mul]

/-- C9 witness: a request with zero push amount still reaches the engine
with announce true and push some 0. -/
theorem open_channel_always_announced_with_push_witness :
    (openChannelCall ⟨pkEx, "1.2.3.4:9735", 20000, 0⟩ addrEx).announce_channel = true ∧
    (openChannelCall ⟨pkEx, "1.2.3.4:9735", 20000, 0⟩ addrEx).push_to_counterparty_msat =
      some 0 := by
  exact ⟨(open_channel_always_announced_with_push ⟨pkEx, "1.2.3.4:9735", 20000, 0⟩ addrEx).1,
    (open_channel_always_announced_with_push ⟨pkEx, "1.2.3.4:9735", 20000, 0⟩ addrEx).2.2.1 rfl⟩

/-- C10: list-channels answers one entry per engine channel in the same
order (equal lengths, index-wise correspondence), each entry the pure
field-by-field translation: channel id stringified to lowercase hex,
counterparty key, capacities, flags and the raw 128-bit correlation id
copied verbatim. -/
theorem list_channels_entrywise :
    ∀ cs : List ChannelDetails,
    (list_channels cs).channels.length = cs.length ∧
    ∀ (i : Nat) (hi : i < cs.length) (hj : i < (list_channels cs).channels.length),
      ((list_channels cs).channels[i].channel_id = cs[i].channel_id.to_string ∧
       (list_channels cs).channels[i].counterparty_node_id = cs[i].counterparty_node_id ∧
       (list_channels cs).channels[i].channel_value_sats = cs[i].channel_value_sats ∧
       (list_channels cs).channels[i].user_channel_id = cs[i].user_channel_id.val ∧
       (list_channels cs).channels[i].outbound_capacity_msat = cs[i].outbound_capacity_msat ∧
       (list_channels cs).channels[i].inbound_capacity_msat = cs[i].inbound_capacity_msat ∧
       (list_channels cs).channels[i].is_channel_ready = cs[i].is_channel_ready ∧
       (list_channels cs).channels[i].is_usable = cs[i].is_usable) := by
  intro cs
  constructor
  · simp [list_channels]
  · intro i hi hj
    simp [list_channels, List.getElem_map, CompactChannel.ofChannelDetails]

/-- C10 witness: on a concrete two-channel list the response has two
entries and the second entry carries the second channel's raw correlation
id 88. -/
theorem list_channels_entrywise_witness :
    (list_channels [chanEx1, chanEx2]).channels.length = [chanEx1, chanEx2].length ∧
    ((list_channels [chanEx1, chanEx2]).channels.get
      ⟨1, by decide⟩).user_channel_id = 88 := by
  constructor
  · exact (list_channels_entrywise [chanEx1, chanEx2]).1
  · have h := (list_channels_entrywise [chanEx1, chanEx2]).2 1 (by decide) (by decide)
    exact h.2.2.2.1.trans rfl

end RelayNode
